import Mathlib

/-!
Verification of the j-archive Game extraction module (src/Game.py) against its
specification.  The Python classes Game, Clue, FinalJeopardyClue and Contestant
are shallowly embedded: bs4 tree queries and `re` matches appear as oracle
fields of document records (they are produced by external libraries), while all
logic written in Game.py itself — string normalisation, list indexing, control
flow, exception raising — is translated function by function.  Fallible Python
code is modelled with `Except PyErr`.
-/

/-- Python exceptions raised (or raisable) by the code paths modelled here. -/
inductive PyErr where
  | valueError (msg : String)
  | attributeError (name : String)
  | typeError (msg : String)
  | keyError (key : String)
  | indexError
  | systemExit
deriving DecidableEq

deriving instance DecidableEq for Except

/- ## Python string primitives used by Game.py -/

/-- Split a character list at every occurrence of `c` (Python `str.split(sep)`
with a one-character separator: empty fields are kept). -/
def splitCharAux (c : Char) : List Char → List Char → List (List Char)
  | [], acc => [acc.reverse]
  | x :: xs, acc =>
    if x = c then acc.reverse :: splitCharAux c xs []
    else splitCharAux c xs (x :: acc)

/-- Python `s.split(c)` for a single-character separator. -/
def pySplit (s : String) (c : Char) : List String :=
  (splitCharAux c s.toList []).map String.mk

/-- Python `s.strip(chars)`: remove the given characters from both ends. -/
def pyStripChars (s : String) (cs : List Char) : String :=
  String.mk (((s.toList.dropWhile (· ∈ cs)).reverse.dropWhile (· ∈ cs)).reverse)

/-- Python `s.strip()`: remove whitespace from both ends. -/
def pyStripWs (s : String) : String :=
  String.mk (((s.toList.dropWhile Char.isWhitespace).reverse.dropWhile Char.isWhitespace).reverse)

/-- Python `s.replace(c, '')`: delete every occurrence of one character. -/
def removeChar (s : String) (c : Char) : String :=
  String.mk (s.toList.filter (· ≠ c))

/-- Python `s[n:]`. -/
def strDropN (s : String) (n : Nat) : String :=
  String.mk (s.toList.drop n)

/-- Python `s.lower()` (ASCII, which is all the page data uses). -/
def pyLower (s : String) : String :=
  String.mk (s.toList.map Char.toLower)

/-- Python `sep.join(parts)`. -/
def pyJoin (sep : String) : List String → String
  | [] => ""
  | [x] => x
  | x :: y :: rest => x ++ sep ++ pyJoin sep (y :: rest)

/-- Digits to a natural number, most significant first. -/
def digitsVal (cs : List Char) : Nat :=
  cs.foldl (fun a c => a * 10 + (c.toNat - 48)) 0

/-- Python `int(s)`: optional surrounding whitespace, optional sign, at least
one digit; anything else raises ValueError. -/
def pyInt (s : String) : Except PyErr Int :=
  let t := (pyStripWs s).toList
  match t with
  | '-' :: rest =>
      if rest ≠ [] ∧ rest.all Char.isDigit then .ok (-(digitsVal rest : Int))
      else .error (.valueError "invalid literal for int")
  | '+' :: rest =>
      if rest ≠ [] ∧ rest.all Char.isDigit then .ok (digitsVal rest : Int)
      else .error (.valueError "invalid literal for int")
  | rest =>
      if rest ≠ [] ∧ rest.all Char.isDigit then .ok (digitsVal rest : Int)
      else .error (.valueError "invalid literal for int")

/-- Python list subscription `l[i]`: negative indices count from the end,
out-of-range raises IndexError. -/
def pyListGet {α : Type} (l : List α) (i : Int) : Except PyErr α :=
  let j : Int := if i < 0 then i + l.length else i
  match l.get? j.toNat with
  | some a => if 0 ≤ j then .ok a else .error .indexError
  | none => .error .indexError

/-- Python dict subscription `d[k]` over an insertion-ordered mapping:
missing key raises KeyError. -/
def pyDictGet {α : Type} (l : List (String × α)) (k : String) : Except PyErr α :=
  match List.lookup k l with
  | some v => .ok v
  | none => .error (.keyError k)

/- ## Contestants and the score-timeline engine
(`Contestant`, `Game._make_score_data`, `Game.score_graph` in src/Game.py) -/

/-- Embeds `Contestant.__init__`: display name, derived first name (first token of
`name.split(" ")`), link, flavor text, and the fixed 70-slot score buffer. -/
structure Contestant where
  name : String
  first_name : String
  link : String
  flavor : String
  score_series : List Int
deriving DecidableEq

/-- Embeds the constructor call `Contestant(name, link, flavor)`. -/
def mkContestant (name link flavor : String) : Contestant :=
  { name := name, first_name := ((pySplit name ' ').headD ""),
    link := link, flavor := flavor, score_series := List.replicate 70 0 }

/-- One element of a clue's `_correct_` list.  For a regular clue the Python
tuple is `(player, tv)`; for the final round it is `(player, tv, wager_text)`.
The `wager` component exists only on final-round tuples and is only ever read
by `_update_series` when `fj=True`, so a default `""` on regular entries is
unobservable. -/
structure RespEntry where
  name : String
  tv : Bool
  wager : String := ""
deriving DecidableEq

/-- Wager normalisation inside `Contestant._update_series`:
`int(val.strip()[1:].replace(',',''))` — strip whitespace, drop the leading
currency symbol, delete commas, parse. -/
def parseWager (s : String) : Except PyErr Int :=
  pyInt (removeChar (strDropN (pyStripWs s) 1) ',')

/-- Embeds `Contestant._update_series(clue, resp, i, fj)`.  If this contestant's first
name occurs among the respondents, the first matching tuple decides sign and
amount and the delta is stored at buffer slot `i`.  The store sits in a bare
`try/except` whose handler prints and calls `exit()`: an out-of-range slot
terminates the process (modelled as `systemExit`). -/
def updateSeries (c : Contestant) (clueValue : Int) (resp : List RespEntry)
    (i : Nat) (fj : Bool) : Except PyErr Contestant :=
  let guessers := resp.map (fun x => x.name)
  if c.first_name ∈ guessers then
    match resp.filter (fun x => x.name == c.first_name) with
    | [] => .error .indexError
    | x :: _ =>
      match (if fj then parseWager x.wager else .ok clueValue) with
      | .error e => .error e
      | .ok v =>
        let val : Int := if x.tv = false then -1 * v else v
        if i < c.score_series.length then
          .ok { c with score_series := c.score_series.set i val }
        else
          .error .systemExit
  else .ok c

/-- The per-clue data `_make_score_data` reads off a clue:
`clue.order_num`, `clue.value` and `clue.correct('all')` (= `_correct_`). -/
structure ScClue where
  order_num : Option Nat
  value : Int
  correctAll : List RespEntry
deriving DecidableEq

/-- The slice of a `Game` that `score_graph`/`_make_score_data` read and
write: the three per-round clue lists, the contestants, and the lazily cached
`score_data` (initialised to `None` by `Game.__init__`). -/
structure ScGame where
  cluesJ : List ScClue
  cluesDJ : List ScClue
  cluesFJ : List ScClue
  contestants : List Contestant
  score_data : Option (List (String × List Int)) := none
deriving DecidableEq

/-- Run a fallible update over every element of a list, left to right
(the source's `for contestant in self.contestants` loop). -/
def exceptMap {α β : Type} (f : α → Except PyErr β) : List α → Except PyErr (List β)
  | [] => .ok []
  | a :: as =>
    match f a with
    | .error e => .error e
    | .ok b =>
      match exceptMap f as with
      | .error e => .error e
      | .ok bs => .ok (b :: bs)

/-- One of the first two round loops of `_make_score_data`: clues without an
order number are skipped; otherwise every contestant is updated at slot
`order_num + offset` and the running maximum index is maintained
(`if i > max_i: max_i = i`). -/
def processRound : List ScClue → Nat → List Contestant → Nat →
    Except PyErr (List Contestant × Nat)
  | [], _, conts, maxI => .ok (conts, maxI)
  | clue :: rest, offset, conts, maxI =>
    match clue.order_num with
    | none => processRound rest offset conts maxI
    | some n =>
      match exceptMap
          (fun c => updateSeries c clue.value clue.correctAll (n + offset) false) conts with
      | .error e => .error e
      | .ok conts2 => processRound rest offset conts2 (Nat.max maxI (n + offset))

/-- The final-round loop of `_make_score_data`: every contestant is updated at
slot `max_i + 1` with `fj=True`, and immediately afterwards that contestant's
buffer is truncated to `score_series[:max_i+2]`. -/
def processFinal : List ScClue → Nat → List Contestant → Except PyErr (List Contestant)
  | [], _, conts => .ok conts
  | clue :: rest, maxI, conts =>
    match exceptMap
        (fun c =>
          match updateSeries c clue.value clue.correctAll (maxI + 1) true with
          | .error e => .error e
          | .ok c2 => .ok { c2 with score_series := c2.score_series.take (maxI + 2) })
        conts with
    | .error e => .error e
    | .ok conts2 => processFinal rest maxI conts2

/-- Cumulative-sum helper for `_make_series`: slot `i` becomes
`slot (i-1) + slot i`, where `prev` is the already-rewritten previous slot. -/
def makeSeriesAux : Int → List Int → List Int
  | _, [] => []
  | prev, x :: xs => (prev + x) :: makeSeriesAux (prev + x) xs

/-- Embeds `Contestant._make_series`: rewrite the delta buffer in place into a
running sum; slot 0 is left untouched. -/
def makeSeries (c : Contestant) : Contestant :=
  match c.score_series with
  | [] => c
  | x :: xs => { c with score_series := x :: makeSeriesAux x xs }

/-- Embeds `Game._make_score_data`, returning both the name-keyed result and the
post-mutation contestants (the Python method mutates `self.contestants` in
place; the returned dict is modelled as an insertion-ordered list of pairs). -/
def makeScoreDataFull (g : ScGame) :
    Except PyErr (List (String × List Int) × List Contestant) :=
  match processRound g.cluesJ 0 g.contestants 0 with
  | .error e => .error e
  | .ok (c1, m1) =>
    match processRound g.cluesDJ m1 c1 m1 with
    | .error e => .error e
    | .ok (c2, m2) =>
      match processFinal g.cluesFJ m2 c2 with
      | .error e => .error e
      | .ok c3 =>
        let c4 := c3.map makeSeries
        .ok (c4.map (fun c => (c.name, c.score_series)), c4)

/-- The score data alone, as `_make_score_data`'s caller sees it. -/
def makeScoreData (g : ScGame) : Except PyErr (List (String × List Int)) :=
  match makeScoreDataFull g with
  | .error e => .error e
  | .ok r => .ok r.1

/-- Embeds `Game.score_graph(plt=None)`: compute `_make_score_data` on first request,
cache it in `self.score_data`, and return the cached value afterwards.  The
result pairs the returned data with the post-call game state. -/
def scoreGraph (g : ScGame) : Except PyErr (List (String × List Int) × ScGame) :=
  match g.score_data with
  | some d => .ok (d, g)
  | none =>
    match makeScoreDataFull g with
    | .error e => .error e
    | .ok r => .ok (r.1, { g with score_data := some r.1, contestants := r.2 })

/-- The value `max_i` holds after one round loop of `_make_score_data`:
ordered clues contribute `order_num + offset` to the running maximum. -/
def roundMaxOrder : List ScClue → Nat → Nat → Nat
  | [], _, m => m
  | clue :: rest, offset, m =>
    match clue.order_num with
    | none => roundMaxOrder rest offset m
    | some n => roundMaxOrder rest offset (Nat.max m (n + offset))

/- ## Document oracles

bs4 tree queries and `re` matches are performed by external libraries, so
their results appear as record fields: each field holds exactly what the
corresponding query in src/Game.py would return on the document. -/

/-- A round container `div` (`body.find('div', attrs={'id': round_})`):
its `td.category_name` cell texts in document order, and the payload of its
first `div` carrying an `onmouseover` attribute (used by the final round's
response walk), if any. -/
structure RoundDiv where
  categoryCells : List String
  omPayload : Option String
deriving DecidableEq

/-- A `p.contestants` bio paragraph: its full text, its anchor text and its
anchor href (`cont.text`, `cont.a.text`, `cont.a['href']`). -/
structure ContPara where
  text : String
  aText : String
  aHref : String
deriving DecidableEq

/-- A `td.clue` cell, with the query/match results `Clue.__init__` and its
helpers extract from it.  `outcomeRows` are the `wasCorrect_regex` findall
pairs (marker, player); `quotations` the `r'\((.*?)\)'` findall groups;
`fjMatches` the `fj_regex` findall pairs over the extracted annotation. -/
structure ClueFrag where
  contentsLen : Nat
  parentRoundId : Option String
  clueTextCell : Option (String × String)
  valueCell : Option String
  ddValueCell : Option String
  orderCell : Option String
  onmouseover : Option String
  targetMatch : Option String
  stuckMatch : Option String
  outcomeRows : List (String × String)
  quotations : List String
  fjMatches : List (String × String)
deriving DecidableEq

/-- The parsed page as `Game.__init__` consumes it. `titleGroups` is
`re.search(title_regex, title).groups()` — `none` when the title does not
match. -/
structure Doc where
  gameTitle : Option String
  titleGroups : Option (String × String × String × String × String)
  contParas : List ContPara
  rawClues : List ClueFrag
  jeopardyDiv : Option RoundDiv
  doubleDiv : Option RoundDiv
  finalDiv : Option RoundDiv
deriving DecidableEq

/- ## Category Index (`Game._set_categories`) -/

/-- Collect one round's category cells.  When the container is absent,
`find` returns `None` and the source immediately calls
`round_tag.find_all(...)` on it: `AttributeError`. -/
def roundTagCats (div : Option RoundDiv) : Except PyErr (List String) :=
  match div with
  | none => .error (.attributeError "find_all")
  | some dv => .ok (dv.categoryCells.map pyLower)

/-- Embeds `Game._set_categories`: the three rounds are visited in the fixed order of
`Game.rounds`, lower-casing each category cell text. -/
def setCategories (doc : Doc) : Except PyErr (List (String × List String)) :=
  match roundTagCats doc.jeopardyDiv with
  | .error e => .error e
  | .ok j =>
    match roundTagCats doc.doubleDiv with
    | .error e => .error e
    | .ok dj =>
      match roundTagCats doc.finalDiv with
      | .error e => .error e
      | .ok f =>
        .ok [("jeopardy_round", j), ("double_jeopardy_round", dj),
             ("final_jeopardy_round", f)]

/- ## Clue extraction (`Clue`, `FinalJeopardyClue`) -/

/-- A parsed regular clue: the public attributes `Clue.__init__` assigns.
The source attribute `annotation` is called `annot` here.  For a clue whose
corrected round is the final round, Python leaves `order_num`,
`daily_double`, `value`, `_correct_` and `responses` unassigned; this record
stores `none`/`false`/`0`/`[]`/`[]` there, values that no modelled code path
reads for such a clue (the final round goes through `FJRec` instead). -/
structure ClueRec where
  round_ : String
  text : String
  category : String
  row : Option Int
  column : Option Int
  target : String
  annot : String
  order_num : Option Int
  daily_double : Bool
  value : Int
  correct : List (String × Bool)
  responses : List (String × String)
deriving DecidableEq

/-- A parsed final-round clue (`FinalJeopardyClue`): the inherited base
attributes plus the per-contestant lists.  `fjResponses` is the overwritten
`responses` attribute (a list of response texts, a different shape from
`Clue.responses`), `fjCorrect` the `(contestant, tv, wager)` triples. -/
structure FJRec where
  round_ : String
  text : String
  category : String
  row : Option Int
  column : Option Int
  target : String
  annot : String
  contestants : List String
  fjResponses : List String
  wagers : List String
  fjCorrect : List (String × Bool × String)
deriving DecidableEq

/-- A clue held in `Game.clues`. -/
inductive ParsedClue where
  | std (c : ClueRec)
  | fj (c : FJRec)
deriving DecidableEq

/-- Dynamic attribute lookup for the clue's board coordinates, as used while
evaluating the diagnostic print in `_set_responses`.  `Clue` only ever assigns
`row` and `column`; any other coordinate attribute name raises
`AttributeError` (the source reads `self.col`). -/
def clueCoordAttr (row column : Option Int) : String → Except PyErr Int
  | "row" =>
    match row with
    | some r => .ok r
    | none => .error (.attributeError "row")
  | "column" =>
    match column with
    | some cl => .ok cl
    | none => .error (.attributeError "column")
  | other => .error (.attributeError other)

/-- Outcome rows to `_correct_` entries: `'right'` appends `(player, True)`,
`'wrong'` appends `(player, False)`; anything else is not appended (the regex
admits only these two markers). -/
def rowsToCorrect : List (String × String) → List (String × Bool)
  | [] => []
  | (marker, player) :: rest =>
    if marker == "right" then (player, true) :: rowsToCorrect rest
    else if marker == "wrong" then (player, false) :: rowsToCorrect rest
    else rowsToCorrect rest

/-- One parenthesised quotation: `speaker` is the part before the first colon,
`speech` the colon-joined remainder, both stripped. -/
def parseQuotation (m : String) : String × String :=
  match pySplit m ':' with
  | [] => ("", "")
  | speaker :: restParts => (pyStripWs speaker, pyStripWs (pyJoin ":" restParts))

/-- Embeds `Clue._set_responses`.  Returns `(target, annotation, _correct_,
responses)`.

* The annotation payload is the clue cell's own `onmouseover` div, except that
  for a final-round clue the source walks the ancestors and, if the
  final-round container is among them (`fjDiv`), searches that container's
  divs instead.
* A missing payload raises `ValueError('Clue has no response?')`; a missing
  `target_regex` match raises `ValueError('Clue has no correct response?')`
  (the `AttributeError` from `.group(1)` is caught and re-raised); a missing
  `response_regex` match raises the uncaught `AttributeError` of
  `None.group(1)`.
* For the final round the method returns right after setting the target and
  annotation; `_correct_`/`responses` are left for `FinalJeopardyClue`
  (returned here as `[]`).
* With zero outcome rows the source builds a diagnostic print whose argument
  tuple reads `self.row` and then `self.col`; `col` was never assigned, so the
  lookup raises `AttributeError` (were it present, the `%` format would still
  raise: its last literal has 4 conversion specifiers for 5 arguments).  The
  `.ok` continuation after that lookup models the source's early `return()`
  (which would leave `responses` unassigned — never reached). -/
def setResponses (frag : ClueFrag) (selfRound : String) (row column : Option Int)
    (fjDiv : Option RoundDiv) :
    Except PyErr (String × String × List (String × Bool) × List (String × String)) :=
  let annSrc : Option String :=
    if selfRound == "final_jeopardy_round" then
      match fjDiv with
      | some dvv => dvv.omPayload
      | none => frag.onmouseover
    else frag.onmouseover
  match annSrc with
  | none => .error (.valueError "Clue has no response?")
  | some _ =>
    match frag.targetMatch with
    | none => .error (.valueError "Clue has no correct response?")
    | some target =>
      match frag.stuckMatch with
      | none => .error (.attributeError "group")
      | some annot =>
        if selfRound == "final_jeopardy_round" then
          .ok (target, annot, [], [])
        else if frag.outcomeRows = [] then
          match clueCoordAttr row column "row" with
          | .error e => .error e
          | .ok _ =>
            match clueCoordAttr row column "col" with
            | .error e => .error e
            | .ok _ => .ok (target, annot, [], [])
        else
          .ok (target, annot, rowsToCorrect frag.outcomeRows,
               frag.quotations.map parseQuotation)

/-- Embeds `Clue._set_category(id_str)` together with the id decoding in
`_set_text`: split the coordinate id, correct the round if it conflicts with
the coordinate-encoded round (a printed warning, not an error), and resolve
row/column/category.  Returns `(selfRound, row, column, category)`. -/
def setCategoryStep (idStr round_ : String) (cats : List (String × List String)) :
    Except PyErr (String × Option Int × Option Int × String) :=
  match (if idStr == "clue_FJ" then .ok ("FJ", "", "")
         else
           match (pySplit idStr '_').drop 1 with
           | [a, b, c] => .ok (a, b, c)
           | _ => .error (.valueError "not enough values to unpack") :
         Except PyErr (String × String × String)) with
  | .error e => .error e
  | .ok (rnd, colS, rowS) =>
    let selfRound :=
      if (rnd == "J" && round_ != "jeopardy_round") ||
         (rnd == "DJ" && round_ != "double_jeopardy_round") ||
         (rnd == "FJ" && round_ != "final_jeopardy_round") then
        if rnd == "J" then "jeopardy_round"
        else if rnd == "DJ" then "double_jeopardy_round"
        else if rnd == "FJ" then "final_jeopardy_round"
        else round_
      else round_
    match pyDictGet cats selfRound with
    | .error e => .error e
    | .ok cs =>
      if rnd == "FJ" then
        match pyListGet cs 0 with
        | .error e => .error e
        | .ok cat => .ok (selfRound, none, none, cat)
      else
        match pyInt rowS with
        | .error e => .error e
        | .ok r =>
          match pyInt colS with
          | .error e => .error e
          | .ok cl =>
            match pyListGet cs (cl - 1) with
            | .error e => .error e
            | .ok cat => .ok (selfRound, some r, some cl, cat)

/-- Embeds `Clue._set_value` (reached only when the corrected round is not the final
round): prefer the `clue_value` cell (`daily_double = False`, strip whitespace
then `$`), else the `clue_value_daily_double` cell (`daily_double = True`,
drop the 5-character `'DD: $'` prefix and commas), else
`ValueError('Clue has no value?')`.  Returns `(daily_double, value)`. -/
def setValue (frag : ClueFrag) : Except PyErr (Bool × Int) :=
  match frag.valueCell with
  | some v =>
    match pyInt (pyStripChars (pyStripWs v) ['$']) with
    | .error e => .error e
    | .ok n => .ok (false, n)
  | none =>
    match frag.ddValueCell with
    | none => .error (.valueError "Clue has no value?")
    | some d =>
      match pyInt (removeChar (strDropN d 5) ',') with
      | .error e => .error e
      | .ok n => .ok (true, n)

/-- Embeds `Clue.__init__(bs4_tag, game, round_)` on the parse path: `_set_text`
(whose missing `clue_text` cell would make `None.text` raise), then
`_set_category`, `_set_responses`, and — guarded by the *constructor
parameter* `round_` — `_set_value` (itself guarded by the corrected
`self.round_`) and the order-number cell, whose absence is caught
(`order_num = None`, a printed notice) while a malformed integer in a present
cell raises. -/
def clueInit (frag : ClueFrag) (cats : List (String × List String))
    (round_ : String) (fjDiv : Option RoundDiv) : Except PyErr ClueRec :=
  match frag.clueTextCell with
  | none => .error (.attributeError "text")
  | some (text, idStr) =>
    match setCategoryStep idStr round_ cats with
    | .error e => .error e
    | .ok (selfRound, row, column, category) =>
      match setResponses frag selfRound row column fjDiv with
      | .error e => .error e
      | .ok (target, annot, correct, responses) =>
        if round_ == "final_jeopardy_round" then
          .ok { round_ := selfRound, text := text, category := category,
                row := row, column := column, target := target, annot := annot,
                order_num := none, daily_double := false, value := 0,
                correct := correct, responses := responses }
        else
          match (if selfRound == "final_jeopardy_round" then .ok (false, 0)
                 else setValue frag : Except PyErr (Bool × Int)) with
          | .error e => .error e
          | .ok (dd, value) =>
            match (match frag.orderCell with
                   | none => .ok none
                   | some s =>
                     match pyInt s with
                     | .error e => .error e
                     | .ok n => .ok (some n) : Except PyErr (Option Int)) with
            | .error e => .error e
            | .ok order_num =>
              .ok { round_ := selfRound, text := text, category := category,
                    row := row, column := column, target := target,
                    annot := annot, order_num := order_num,
                    daily_double := dd, value := value,
                    correct := correct, responses := responses }

/-- Group the `fj_regex` matches three at a time (`count == 3` resets the
group); a trailing partial group is discarded. -/
def chunks3 : List (String × String) →
    List ((String × String) × (String × String) × (String × String))
  | a :: b :: c :: rest => (a, b, c) :: chunks3 rest
  | _ => []

/-- The final-round outcome labels: `'wrong'` → `False`, `'right'` → `True`,
anything else raises `ValueError('Response neither right nor wrong?')`. -/
def labelsToBools : List String → Except PyErr (List Bool)
  | [] => .ok []
  | l :: rest =>
    if l == "wrong" then
      match labelsToBools rest with
      | .error e => .error e
      | .ok bs => .ok (false :: bs)
    else if l == "right" then
      match labelsToBools rest with
      | .error e => .error e
      | .ok bs => .ok (true :: bs)
    else .error (.valueError "Response neither right nor wrong?")

/-- Index-aligned zip of the three equal-length per-contestant lists into
`_correct_` triples. -/
def zip3Fj : List String → List Bool → List String → List (String × Bool × String)
  | c :: cs, t :: ts, w :: ws => (c, t, w) :: zip3Fj cs ts ws
  | _, _, _ => []

/-- Embeds `FinalJeopardyClue.__init__` on the parse path: the inherited
`Clue.__init__` with round `'final_jeopardy_round'`, then the 3-cell-per-
contestant grouping of the `fj_regex` matches over the annotation. -/
def fjClueInit (frag : ClueFrag) (cats : List (String × List String))
    (fjDiv : Option RoundDiv) : Except PyErr FJRec :=
  match clueInit frag cats "final_jeopardy_round" fjDiv with
  | .error e => .error e
  | .ok base =>
    let fj_data := chunks3 frag.fjMatches
    let contestants := fj_data.map (fun x => x.1.2)
    let resps := fj_data.map (fun x => x.2.1.2)
    let wagers := fj_data.map (fun x => x.2.2.2)
    match labelsToBools (fj_data.map (fun x => x.1.1)) with
    | .error e => .error e
    | .ok tvs =>
      .ok { round_ := base.round_, text := base.text, category := base.category,
            row := base.row, column := base.column, target := base.target,
            annot := base.annot, contestants := contestants,
            fjResponses := resps, wagers := wagers,
            fjCorrect := zip3Fj contestants tvs wagers }

/-- The loop body of `Game._parse_clues` over the remaining fragments, with
the three per-round buckets accumulated in encounter order.  A fragment with
exactly one child is an unrevealed clue and is skipped.  A fragment none of
whose ancestors carries an `id` is modelled as an error (in the source,
`round_` would either be unbound — `NameError` on the first clue — or stale;
no modelled claim exercises this corner). -/
def parseCluesAux : List ClueFrag → List (String × List String) → Option RoundDiv →
    List ParsedClue → List ParsedClue → List ParsedClue →
    Except PyErr (List (String × List ParsedClue))
  | [], _, _, js, ds, fs =>
    .ok [("jeopardy_round", js), ("double_jeopardy_round", ds),
         ("final_jeopardy_round", fs)]
  | frag :: rest, cats, fjDiv, js, ds, fs =>
    if frag.contentsLen = 1 then parseCluesAux rest cats fjDiv js ds fs
    else
      match frag.parentRoundId with
      | none => .error (.valueError "round_ referenced before assignment")
      | some r =>
        if r == "final_jeopardy_round" then
          match fjClueInit frag cats fjDiv with
          | .error e => .error e
          | .ok c => parseCluesAux rest cats fjDiv js ds (fs ++ [.fj c])
        else if r == "jeopardy_round" then
          match clueInit frag cats r none with
          | .error e => .error e
          | .ok c => parseCluesAux rest cats fjDiv (js ++ [.std c]) ds fs
        else if r == "double_jeopardy_round" then
          match clueInit frag cats r none with
          | .error e => .error e
          | .ok c => parseCluesAux rest cats fjDiv js (ds ++ [.std c]) fs
        else .error (.valueError "Unknown round")

/-- Embeds `Game._parse_clues`. -/
def parseClues (frags : List ClueFrag) (cats : List (String × List String))
    (fjDiv : Option RoundDiv) : Except PyErr (List (String × List ParsedClue)) :=
  if frags.isEmpty then
    .error (.valueError "Game has no clues yet _parse_clues was called?")
  else parseCluesAux frags cats fjDiv [] [] []

/- ## Game assembly (`Game.__init__`) -/

/-- The public attributes `Game.__init__` assigns on the parse path
(`score_data` starts as `None`; the scoring engine operates on the `ScGame`
projection above). -/
structure Game where
  id_ : String
  title : String
  game_number : String
  weekday : String
  month : String
  day : String
  date : String
  year : String
  contestants : List Contestant
  categories : List (String × List String)
  clues : List (String × List ParsedClue)
deriving DecidableEq

/-- Embeds `Game.__init__(page_source, url)`: id from the url's final `=` segment,
title lookup (absent container → `None.text`), title regex groups (no match →
`None.groups()`), contestant roster, then either the full
categories-and-clues build or — when the document holds zero clue fragments —
the fixed empty structures for all three rounds. -/
def gameInit (doc : Doc) (url : String) : Except PyErr Game :=
  let id_ := ((pySplit url '=').getLastD "")
  match doc.gameTitle with
  | none => .error (.attributeError "text")
  | some title =>
    match doc.titleGroups with
    | none => .error (.attributeError "groups")
    | some (num, dow, mon, day, year) =>
      let contestants := doc.contParas.map (fun p => mkContestant p.aText p.aHref p.text)
      if doc.rawClues.isEmpty then
        .ok { id_ := id_, title := title, game_number := num, weekday := dow,
              month := mon, day := day, date := pyJoin " " [day, mon, year],
              year := year, contestants := contestants,
              categories := [("jeopardy_round", []), ("double_jeopardy_round", []),
                             ("final_jeopardy_round", [])],
              clues := [("jeopardy_round", []), ("double_jeopardy_round", []),
                        ("final_jeopardy_round", [])] }
      else
        match setCategories doc with
        | .error e => .error e
        | .ok cats =>
          match parseClues doc.rawClues cats doc.finalDiv with
          | .error e => .error e
          | .ok clues =>
            .ok { id_ := id_, title := title, game_number := num, weekday := dow,
                  month := mon, day := day, date := pyJoin " " [day, mon, year],
                  year := year, contestants := contestants,
                  categories := cats, clues := clues }

/- ## Serialization Adapter (`Game.__dict__` / `Game._load` and the clue
counterparts) -/

/-- One clue's dictionary, as produced by `Clue.__dict__` /
`FinalJeopardyClue.__dict__`.  Three shapes occur: the full regular-clue
dict, the final-clue dict (7 base keys plus `correct`/`wagers`/`responses`/
`contestants`), and the 7-key base dict `Clue.__dict__` emits for a plain
clue whose round is the final round. -/
inductive ClueDict where
  | std (c : ClueRec)
  | fjd (c : FJRec)
  | base7 (round_ text category : String) (row column : Option Int)
      (target annot : String)
deriving DecidableEq

/-- The `round_` key of a clue dictionary. -/
def ClueDict.roundOf : ClueDict → String
  | .std c => c.round_
  | .fjd c => c.round_
  | .base7 r _ _ _ _ _ _ => r

/-- Embeds `Clue.__dict__` and `FinalJeopardyClue.__dict__`. -/
def clueDictOf : ParsedClue → ClueDict
  | .std c =>
    if c.round_ == "final_jeopardy_round" then
      .base7 c.round_ c.text c.category c.row c.column c.target c.annot
    else .std c
  | .fj c => .fjd c

/-- The nested mapping produced by `Game.__dict__`: keys `id_, title,
game_number, weekday, month, day, date, year, categories, clues`, the clues
flattened over the rounds in key order.  No `contestants` key exists. -/
structure GameDict where
  id_ : String
  title : String
  game_number : String
  weekday : String
  month : String
  day : String
  date : String
  year : String
  categories : List (String × List String)
  clues : List ClueDict
deriving DecidableEq

/-- Embeds `Game.__dict__`. -/
def gameDict (g : Game) : GameDict :=
  { id_ := g.id_, title := g.title, game_number := g.game_number,
    weekday := g.weekday, month := g.month, day := g.day, date := g.date,
    year := g.year, categories := g.categories,
    clues := (g.clues.map (fun p => p.2.map clueDictOf)).flatten }

/-- The attributes `Game._load` assigns.  `Game._load` never assigns
`contestants` (nor the recomputable `score_data`/document fields): a restored
Game has no contestant roster at all, so this record has no such field. -/
structure LoadedGame where
  id_ : String
  title : String
  game_number : String
  weekday : String
  month : String
  day : String
  date : String
  year : String
  categories : List (String × List String)
  clues : List (String × List ParsedClue)
deriving DecidableEq

/-- The clue loop of `Game._load`, one dictionary at a time, in order.

* `round_ == 'final_jeopardy_round'` dispatches to
  `FinalJeopardyClue(game=self, load=True, **clue)`, whose `__init__`
  executes `self._load(game, kwargs)` — handing the kwargs dict to `_load`
  as a second positional argument.  `_load(self, game, **kwargs)` accepts
  only one, so Python raises
  `TypeError: _load() takes 2 positional arguments but 3 were given`
  before any attribute is restored.  (`FinalJeopardyClue._load` itself
  repeats the same slip in its `super()._load(game, kwargs)` call.)
* Any other round is appended to `self.clues[round_]`: the subscript is
  evaluated first, so a round string that is not one of the two remaining
  keys raises `KeyError`; otherwise `Clue(game=self, load=True, **clue)`
  restores the regular-clue fields verbatim.  A 7-key base dict under a
  non-final round would fail on the missing `order_num` key (unreachable for
  dictionaries `gameDict` produces). -/
def loadClues : List ClueDict →
    Except PyErr (List ParsedClue × List ParsedClue × List ParsedClue)
  | [] => .ok ([], [], [])
  | d :: rest =>
    if d.roundOf == "final_jeopardy_round" then
      .error (.typeError "_load() takes 2 positional arguments but 3 were given")
    else if d.roundOf == "jeopardy_round" || d.roundOf == "double_jeopardy_round" then
      match (match d with
             | .std c => .ok (ParsedClue.std c)
             | _ => .error (.keyError "order_num") : Except PyErr ParsedClue) with
      | .error e => .error e
      | .ok c =>
        match loadClues rest with
        | .error e => .error e
        | .ok (js, ds, fs) =>
          if d.roundOf == "jeopardy_round" then .ok (c :: js, ds, fs)
          else .ok (js, c :: ds, fs)
    else .error (.keyError d.roundOf)

/-- Embeds `Game._load` (reached from `Game.__init__` with `load=True`). -/
def gameLoad (d : GameDict) : Except PyErr LoadedGame :=
  match loadClues d.clues with
  | .error e => .error e
  | .ok (js, ds, fs) =>
    .ok { id_ := d.id_, title := d.title, game_number := d.game_number,
          weekday := d.weekday, month := d.month, day := d.day,
          date := d.date, year := d.year, categories := d.categories,
          clues := [("jeopardy_round", js), ("double_jeopardy_round", ds),
                    ("final_jeopardy_round", fs)] }

/- ## Concrete inputs used by the witnesses and counterexamples -/

/-- A one-contestant game with no clues, for exercising the cache. -/
def gameC5 : ScGame :=
  { cluesJ := [], cluesDJ := [], cluesFJ := [],
    contestants := [mkContestant "Alice Ayy" "la" "fa"], score_data := none }

/-- Concrete contestants and clues exercising the final-round write. -/
def alice4 : Contestant := mkContestant "Alice Ayy" "la" "fa"

def bob4 : Contestant := mkContestant "Bob Bee" "lb" "fb"

def clueJ4 : ScClue :=
  { order_num := some 1, value := 100, correctAll := [{ name := "Alice", tv := true }] }

def fc4 : ScClue :=
  { order_num := none, value := 0,
    correctAll := [{ name := "Alice", tv := true, wager := "$500" },
                   { name := "Bob", tv := false, wager := "$1,000" }] }

def game4 : ScGame :=
  { cluesJ := [clueJ4], cluesDJ := [], cluesFJ := [fc4],
    contestants := [alice4, bob4], score_data := none }

def aliceMid4 : Contestant :=
  { alice4 with score_series := (List.replicate 70 0).set 1 100 }

def c14 : List Contestant := [aliceMid4, bob4]

def conts34 : List Contestant :=
  [{ alice4 with score_series := [0, 100, 500] },
   { bob4 with score_series := [0, 0, -1000] }]

/-- A game whose only response event names Bob, leaving Alice untouched. -/
def game9 : ScGame :=
  { cluesJ := [{ order_num := some 1, value := 100,
                 correctAll := [{ name := "Bob", tv := true }] }],
    cluesDJ := [], cluesFJ := [], contestants := [alice4, bob4],
    score_data := none }

/-- The score data `game9` produces. -/
def res9 : List (String × List Int) :=
  [("Alice Ayy", List.replicate 70 0), ("Bob Bee", 0 :: List.replicate 69 100)]

/-- A parsed final-round clue for the round-trip check. -/
def fjRecC1 : FJRec :=
  { round_ := "final_jeopardy_round", text := "the final prompt",
    category := "cat", row := none, column := none, target := "resp",
    annot := "ann", contestants := ["Alice"], fjResponses := ["what is it"],
    wagers := ["$500"], fjCorrect := [("Alice", true, "$500")] }

/-- A constructed Game holding one final-round clue and one contestant. -/
def gameC1 : Game :=
  { id_ := "173", title := "#1, aired Monday, January 1, 1990",
    game_number := "1", weekday := "Monday", month := "January", day := "1",
    date := "1 January 1990", year := "1990",
    contestants := [mkContestant "Alice Ayy" "la" "fa"],
    categories := [("jeopardy_round", ["a"]), ("double_jeopardy_round", []),
                   ("final_jeopardy_round", ["cat"])],
    clues := [("jeopardy_round", []), ("double_jeopardy_round", []),
              ("final_jeopardy_round", [ParsedClue.fj fjRecC1])] }

/-- A revealed first-round clue cell whose annotation holds a target and
commentary but zero right/wrong outcome rows. -/
def fragC2 : ClueFrag :=
  { contentsLen := 2, parentRoundId := some "jeopardy_round",
    clueTextCell := some ("clue text", "clue_J_1_1"), valueCell := some "$200",
    ddValueCell := none, orderCell := some "1",
    onmouseover := some "toggle stuff", targetMatch := some "the target",
    stuckMatch := some "commentary", outcomeRows := [], quotations := [],
    fjMatches := [] }

/-- A categories mapping with one first-round category. -/
def catsJ1 : List (String × List String) :=
  [("jeopardy_round", ["cat one"]), ("double_jeopardy_round", []),
   ("final_jeopardy_round", [])]

/-- A revealed clue cell whose annotation lacks the target-response marker. -/
def fragC3bad : ClueFrag :=
  { contentsLen := 2, parentRoundId := some "jeopardy_round",
    clueTextCell := some ("t1", "clue_J_1_1"), valueCell := some "$200",
    ddValueCell := none, orderCell := some "1", onmouseover := some "toggle",
    targetMatch := none, stuckMatch := some "ann",
    outcomeRows := [("right", "Alice")], quotations := [], fjMatches := [] }

/-- A well-formed clue cell following the broken one in document order. -/
def fragC3good : ClueFrag :=
  { contentsLen := 2, parentRoundId := some "jeopardy_round",
    clueTextCell := some ("t2", "clue_J_2_1"), valueCell := some "$400",
    ddValueCell := none, orderCell := some "2", onmouseover := some "toggle",
    targetMatch := some "resp2", stuckMatch := some "ann2",
    outcomeRows := [("right", "Alice")], quotations := [], fjMatches := [] }

/-- A document whose first clue lacks the target marker while its second is
perfectly parseable. -/
def docC3 : Doc :=
  { gameTitle := some "#3 title",
    titleGroups := some ("3", "Wed", "Jan", "3", "1990"),
    contParas := [{ text := "fa", aText := "Alice Ayy", aHref := "la" }],
    rawClues := [fragC3bad, fragC3good],
    jeopardyDiv := some { categoryCells := ["CAT A", "CAT B"], omPayload := none },
    doubleDiv := some { categoryCells := [], omPayload := none },
    finalDiv := some { categoryCells := [], omPayload := none } }

/-- The categories `docC3` yields. -/
def catsC3 : List (String × List String) :=
  [("jeopardy_round", ["cat a", "cat b"]), ("double_jeopardy_round", []),
   ("final_jeopardy_round", [])]

/-- A document with zero clue fragments (and no round containers at all). -/
def docC6 : Doc :=
  { gameTitle := some "#5 t", titleGroups := some ("5", "Fri", "Jan", "5", "1990"),
    contParas := [], rawClues := [], jeopardyDiv := none, doubleDiv := none,
    finalDiv := none }

/-- A document whose final-round container is absent. -/
def docC7 : Doc :=
  { gameTitle := some "#4 t", titleGroups := some ("4", "Thu", "Jan", "4", "1990"),
    contParas := [], rawClues := [],
    jeopardyDiv := some { categoryCells := ["A"], omPayload := none },
    doubleDiv := some { categoryCells := [], omPayload := none },
    finalDiv := none }

/-- The clue cell of spec Example 1: id `clue_J_3_2`, value text `$600`. -/
def fragC8 : ClueFrag :=
  { contentsLen := 2, parentRoundId := some "jeopardy_round",
    clueTextCell := some ("prompt", "clue_J_3_2"), valueCell := some "$600",
    ddValueCell := none, orderCell := none, onmouseover := some "toggle",
    targetMatch := some "resp", stuckMatch := some "ann",
    outcomeRows := [("right", "Alice")], quotations := [], fjMatches := [] }

/-- A categories mapping with three first-round categories. -/
def catsC8 : List (String × List String) :=
  [("jeopardy_round", ["c1", "c2", "c3"]), ("double_jeopardy_round", []),
   ("final_jeopardy_round", [])]

/- ## Helper lemmas on the score engine -/

/-- Running `exceptMap` successfully maps each position pointwise. -/
theorem exceptMap_get? {α β : Type} (f : α → Except PyErr β) :
    ∀ (l : List α) (l2 : List β) (j : Nat) (a : α),
      exceptMap f l = .ok l2 → l.get? j = some a →
      ∃ b, f a = .ok b ∧ l2.get? j = some b := by
  intro l
  induction l with
  | nil => intro l2 j a h hj; simp at hj
  | cons x xs ih =>
    intro l2 j a h hj
    unfold exceptMap at h
    cases hfx : f x with
    | error e => rw [hfx] at h; simp at h
    | ok b =>
      rw [hfx] at h
      cases hrest : exceptMap f xs with
      | error e => rw [hrest] at h; simp at h
      | ok bs =>
        rw [hrest] at h
        simp at h
        subst h
        cases j with
        | zero =>
          rw [List.get?_cons_zero] at hj
          injection hj with hj
          subst hj
          exact ⟨b, hfx, rfl⟩
        | succ n =>
          rw [List.get?_cons_succ] at hj
          obtain ⟨b2, hb2, hg⟩ := ih bs n a hrest hj
          exact ⟨b2, hb2, by rw [List.get?_cons_succ]; exact hg⟩

/-- When the contestant's first name heads the filtered respondent list, the
first matching tuple alone determines the written delta. -/
theorem updateSeries_first_match (c : Contestant) (v : Int) (resp : List RespEntry)
    (x : RespEntry) (rest : List RespEntry) (i : Nat) (fj : Bool) (w : Int)
    (hx : resp.filter (fun e => e.name == c.first_name) = x :: rest)
    (hw : (if fj then parseWager x.wager else .ok v) = .ok w)
    (hi : i < c.score_series.length) :
    updateSeries c v resp i fj =
      .ok { c with score_series := c.score_series.set i (if x.tv then w else -1 * w) } := by
  have hxmem : x ∈ resp.filter (fun e => e.name == c.first_name) := by
    rw [hx]; exact List.mem_cons_self _ _
  rw [List.mem_filter] at hxmem
  obtain ⟨hxr, hxn⟩ := hxmem
  have hname : x.name = c.first_name := by simpa using hxn
  have hmem : c.first_name ∈ resp.map (fun e => e.name) := by
    rw [← hname]
    exact List.mem_map_of_mem _ hxr
  unfold updateSeries
  rw [if_pos hmem, hx]
  simp only [hw]
  rw [if_pos hi]
  cases x.tv <;> simp

/-- A contestant named by no respondent is left unchanged. -/
theorem updateSeries_not_named (c : Contestant) (v : Int) (resp : List RespEntry)
    (i : Nat) (fj : Bool)
    (h : c.first_name ∉ resp.map (fun e => e.name)) :
    updateSeries c v resp i fj = .ok c := by
  unfold updateSeries
  rw [if_neg h]

/-- A successful round loop leaves `max_i` at `roundMaxOrder`. -/
theorem processRound_maxI :
    ∀ (clues : List ScClue) (offset : Nat) (conts : List Contestant) (m : Nat)
      (res : List Contestant × Nat),
      processRound clues offset conts m = .ok res → res.2 = roundMaxOrder clues offset m := by
  intro clues
  induction clues with
  | nil =>
    intro offset conts m res h
    unfold processRound at h
    simp at h
    subst h
    rfl
  | cons clue rest ih =>
    intro offset conts m res h
    unfold processRound at h
    simp only [roundMaxOrder]
    cases ho : clue.order_num with
    | none =>
      simp only [ho] at h ⊢
      exact ih offset conts m res h
    | some n =>
      simp only [ho] at h ⊢
      cases hm : exceptMap
          (fun c => updateSeries c clue.value clue.correctAll (n + offset) false) conts with
      | error e => simp [hm] at h
      | ok conts2 =>
        simp only [hm] at h
        exact ih offset conts2 (Nat.max m (n + offset)) res h

/-- Shifting both the offset and the seed of `roundMaxOrder` by a common
amount factors out. -/
theorem roundMaxOrder_shift :
    ∀ (clues : List ScClue) (c m : Nat),
      roundMaxOrder clues c (c + m) = c + roundMaxOrder clues 0 m := by
  intro clues
  induction clues with
  | nil => intro c m; rfl
  | cons clue rest ih =>
    intro c m
    simp only [roundMaxOrder]
    cases ho : clue.order_num with
    | none => simp only [ho]; exact ih c m
    | some n =>
      simp only [ho]
      have hmax : Nat.max (c + m) (n + c) = c + Nat.max m (n + 0) := by
        rw [Nat.add_comm n c, Nat.add_zero]
        exact max_add_add_left c m n
      rw [hmax]
      exact ih c (Nat.max m (n + 0))

/-- Claim C5: two successive requests for the score data on the same Game
yield bit-identical per-contestant series: `score_graph` computes
`_make_score_data` once, caches it in `score_data`, and the second call
returns the cached value unchanged. -/
theorem score_graph_second_call_identical (g : ScGame)
    (d1 : List (String × List Int)) (g1 : ScGame)
    (h : scoreGraph g = .ok (d1, g1)) :
    scoreGraph g1 = .ok (d1, g1) := by
  unfold scoreGraph at h
  cases hsd : g.score_data with
  | some d =>
    rw [hsd] at h
    simp at h
    obtain ⟨h1, h2⟩ := h
    subst h2
    unfold scoreGraph
    rw [hsd, h1]
  | none =>
    rw [hsd] at h
    cases hm : makeScoreDataFull g with
    | error e => rw [hm] at h; simp at h
    | ok r =>
      rw [hm] at h
      simp at h
      obtain ⟨h1, h2⟩ := h
      subst h2
      unfold scoreGraph
      simp [h1]

/-- Witness for claim C5 at a concrete game. -/
theorem score_graph_second_call_identical_witness :
    scoreGraph { gameC5 with
        score_data := some [("Alice Ayy", List.replicate 70 0)],
        contestants := [mkContestant "Alice Ayy" "la" "fa"] } =
      .ok ([("Alice Ayy", List.replicate 70 0)],
        { gameC5 with
          score_data := some [("Alice Ayy", List.replicate 70 0)],
          contestants := [mkContestant "Alice Ayy" "la" "fa"] }) :=
  score_graph_second_call_identical gameC5 _ _ (by decide)

/-- Unfolding one step of the final-round loop on success. -/
theorem processFinal_cons_ok (clue : ScClue) (rest : List ScClue) (m : Nat)
    (conts conts3 : List Contestant)
    (h : processFinal (clue :: rest) m conts = .ok conts3) :
    ∃ conts2,
      exceptMap
        (fun c =>
          match updateSeries c clue.value clue.correctAll (m + 1) true with
          | .error e => .error e
          | .ok c2 => .ok { c2 with score_series := c2.score_series.take (m + 2) })
        conts = .ok conts2 ∧
      processFinal rest m conts2 = .ok conts3 := by
  unfold processFinal at h
  cases hm : exceptMap
      (fun c =>
        match updateSeries c clue.value clue.correctAll (m + 1) true with
        | .error e => .error e
        | .ok c2 => .ok { c2 with score_series := c2.score_series.take (m + 2) })
      conts with
  | error e => simp [hm] at h
  | ok conts2 =>
    simp only [hm] at h
    exact ⟨conts2, rfl, h⟩

/-- Claim C4: with a single final-round clue, the final slot index is
`(first-round max reveal order) + (second-round max reveal order) + 1`, and a
contestant named in the final clue's triples gets their parsed wager written
there — negated when their verdict was incorrect — with the buffer truncated
to end at that slot. -/
theorem final_round_wager_write
    (g : ScGame) (c1 c2 conts3 : List Contestant) (m1 m2 : Nat)
    (fc : ScClue) (j : Nat) (c : Contestant) (x : RespEntry) (rest : List RespEntry)
    (w : Int)
    (hfj : g.cluesFJ = [fc])
    (h1 : processRound g.cluesJ 0 g.contestants 0 = .ok (c1, m1))
    (h2 : processRound g.cluesDJ m1 c1 m1 = .ok (c2, m2))
    (h3 : processFinal g.cluesFJ m2 c2 = .ok conts3)
    (hj : c2.get? j = some c)
    (hx : fc.correctAll.filter (fun e => e.name == c.first_name) = x :: rest)
    (hw : parseWager x.wager = .ok w)
    (hi : m2 + 1 < c.score_series.length) :
    m2 = roundMaxOrder g.cluesJ 0 0 + roundMaxOrder g.cluesDJ 0 0 ∧
    conts3.get? j = some { c with score_series :=
      (c.score_series.set (m2 + 1) (if x.tv then w else -w)).take (m2 + 2) } := by
  constructor
  · have e1 := processRound_maxI g.cluesJ 0 g.contestants 0 (c1, m1) h1
    have e2 := processRound_maxI g.cluesDJ m1 c1 m1 (c2, m2) h2
    simp at e1 e2
    have e3 := roundMaxOrder_shift g.cluesDJ m1 0
    rw [Nat.add_zero] at e3
    rw [e2, e3, e1]
  · rw [hfj] at h3
    obtain ⟨conts2, hm, hrest⟩ := processFinal_cons_ok fc [] m2 c2 conts3 h3
    unfold processFinal at hrest
    simp at hrest
    subst hrest
    obtain ⟨b, hb, hget⟩ := exceptMap_get? _ c2 conts2 j c hm hj
    have hup := updateSeries_first_match c fc.value fc.correctAll x rest (m2 + 1)
      true w hx (by simpa using hw) hi
    rw [hup] at hb
    simp at hb
    subst hb
    exact hget

/-- Witness for claim C4: outcomes right/wrong with wagers `$500` and
`$1,000` put deltas +500 and -1000 at the final slot (index 2 here), and the
buffers are truncated to three slots. -/
theorem final_round_wager_write_witness :
    ((1 : Nat) = roundMaxOrder [clueJ4] 0 0 + roundMaxOrder ([] : List ScClue) 0 0 ∧
      conts34.get? 0 = some { aliceMid4 with score_series :=
        (aliceMid4.score_series.set 2 (500 : Int)).take 3 }) ∧
    ((1 : Nat) = roundMaxOrder [clueJ4] 0 0 + roundMaxOrder ([] : List ScClue) 0 0 ∧
      conts34.get? 1 = some { bob4 with score_series :=
        (bob4.score_series.set 2 (-1000 : Int)).take 3 }) :=
  ⟨final_round_wager_write game4 c14 c14 conts34 1 1 fc4 0 aliceMid4
      { name := "Alice", tv := true, wager := "$500" } [] 500
      rfl (by decide) (by decide) (by decide) (by decide) (by decide) (by decide)
      (by decide),
   final_round_wager_write game4 c14 c14 conts34 1 1 fc4 1 bob4
      { name := "Bob", tv := false, wager := "$1,000" } [] 1000
      rfl (by decide) (by decide) (by decide) (by decide) (by decide) (by decide)
      (by decide)⟩

/-- The first two round loops do not move a contestant named in none of the
round's response events. -/
theorem processRound_untouched :
    ∀ (clues : List ScClue) (offset : Nat) (conts : List Contestant) (m : Nat)
      (conts2 : List Contestant) (m2 : Nat) (j : Nat) (c : Contestant),
      processRound clues offset conts m = .ok (conts2, m2) →
      conts.get? j = some c →
      (∀ clue ∈ clues, c.first_name ∉ clue.correctAll.map (fun e => e.name)) →
      conts2.get? j = some c := by
  intro clues
  induction clues with
  | nil =>
    intro offset conts m conts2 m2 j c h hj _
    unfold processRound at h
    simp at h
    rw [← h.1]
    exact hj
  | cons clue rest ih =>
    intro offset conts m conts2 m2 j c h hj hn
    unfold processRound at h
    cases ho : clue.order_num with
    | none =>
      simp only [ho] at h
      exact ih offset conts m conts2 m2 j c h hj
        (fun cl hcl => hn cl (List.mem_cons_of_mem _ hcl))
    | some n =>
      simp only [ho] at h
      cases hm : exceptMap
          (fun cc => updateSeries cc clue.value clue.correctAll (n + offset) false) conts with
      | error e => simp [hm] at h
      | ok contsB =>
        simp only [hm] at h
        have hstep : contsB.get? j = some c := by
          obtain ⟨b, hb, hg⟩ := exceptMap_get? _ conts contsB j c hm hj
          rw [updateSeries_not_named c clue.value clue.correctAll (n + offset) false
            (hn clue (List.mem_cons_self _ _))] at hb
          injection hb with hb
          rw [← hb] at hg
          exact hg
        exact ih offset contsB (Nat.max m (n + offset)) conts2 m2 j c h hstep
          (fun cl hcl => hn cl (List.mem_cons_of_mem _ hcl))

/-- The final-round loop truncates but never moves a contestant named in no
final clue's triples. -/
theorem processFinal_untouched :
    ∀ (clues : List ScClue) (m : Nat) (conts conts2 : List Contestant)
      (j : Nat) (c : Contestant),
      processFinal clues m conts = .ok conts2 →
      conts.get? j = some c →
      (∀ clue ∈ clues, c.first_name ∉ clue.correctAll.map (fun e => e.name)) →
      ∃ s, conts2.get? j = some { c with score_series := s } ∧
        ∀ v ∈ s, v ∈ c.score_series := by
  intro clues
  induction clues with
  | nil =>
    intro m conts conts2 j c h hj _
    unfold processFinal at h
    simp at h
    subst h
    exact ⟨c.score_series, hj, fun _ hv => hv⟩
  | cons clue rest ih =>
    intro m conts conts2 j c h hj hn
    obtain ⟨contsB, hm, hrest⟩ := processFinal_cons_ok clue rest m conts conts2 h
    obtain ⟨b, hb, hg⟩ := exceptMap_get? _ conts contsB j c hm hj
    rw [updateSeries_not_named c clue.value clue.correctAll (m + 1) true
      (hn clue (List.mem_cons_self _ _))] at hb
    simp at hb
    rw [← hb] at hg
    obtain ⟨s, hs1, hs2⟩ := ih m contsB conts2 j
      { c with score_series := c.score_series.take (m + 2) } hrest hg
      (fun cl hcl => hn cl (List.mem_cons_of_mem _ hcl))
    exact ⟨s, hs1, fun v hv => List.take_subset _ _ (hs2 v hv)⟩

/-- Cumulative-summing an all-zero buffer is the identity. -/
theorem makeSeriesAux_zero :
    ∀ xs : List Int, (∀ v ∈ xs, v = 0) → makeSeriesAux 0 xs = xs := by
  intro xs
  induction xs with
  | nil => intro _; rfl
  | cons y ys ih =>
    intro h
    have hy : y = 0 := h y (List.mem_cons_self _ _)
    subst hy
    unfold makeSeriesAux
    rw [add_zero]
    rw [ih (fun v hv => h v (List.mem_cons_of_mem _ hv))]

/-- Running `_make_series` fixes an all-zero contestant buffer. -/
theorem makeSeries_zero_series (c : Contestant)
    (h : ∀ v ∈ c.score_series, v = 0) : makeSeries c = c := by
  unfold makeSeries
  cases hs : c.score_series with
  | nil => rfl
  | cons x xs =>
    have hx : x = 0 := h x (by rw [hs]; exact List.mem_cons_self _ _)
    subst hx
    have hzz : makeSeriesAux 0 xs = xs :=
      makeSeriesAux_zero xs (fun v hv => h v (by rw [hs]; exact List.mem_cons_of_mem _ hv))
    show ({ c with score_series := 0 :: makeSeriesAux 0 xs }) = c
    rw [hzz, ← hs]

/-- Inversion of a successful `_make_score_data` run into its three phases. -/
theorem makeScoreDataFull_inv (g : ScGame)
    (r : List (String × List Int) × List Contestant)
    (h : makeScoreDataFull g = .ok r) :
    ∃ c1 m1 c2 m2 c3,
      processRound g.cluesJ 0 g.contestants 0 = .ok (c1, m1) ∧
      processRound g.cluesDJ m1 c1 m1 = .ok (c2, m2) ∧
      processFinal g.cluesFJ m2 c2 = .ok c3 ∧
      r = ((c3.map makeSeries).map (fun c => (c.name, c.score_series)),
           c3.map makeSeries) := by
  unfold makeScoreDataFull at h
  cases h1 : processRound g.cluesJ 0 g.contestants 0 with
  | error e => simp [h1] at h
  | ok p1 =>
    obtain ⟨c1, m1⟩ := p1
    simp only [h1] at h
    cases h2 : processRound g.cluesDJ m1 c1 m1 with
    | error e => simp [h2] at h
    | ok p2 =>
      obtain ⟨c2, m2⟩ := p2
      simp only [h2] at h
      cases h3 : processFinal g.cluesFJ m2 c2 with
      | error e => simp [h3] at h
      | ok c3 =>
        simp only [h3] at h
        injection h with h
        exact ⟨c1, m1, c2, m2, c3, rfl, h2, h3, h.symm⟩

/-- Claim C9: a contestant whose short name appears in no clue's response
events across all rounds ends with a cumulative series that is 0 at every
slot. -/
theorem untouched_contestant_series_zero
    (g : ScGame) (res : List (String × List Int)) (j : Nat) (c : Contestant)
    (hc : g.contestants.get? j = some c)
    (hz : ∀ v ∈ c.score_series, v = 0)
    (hn : ∀ clue ∈ g.cluesJ ++ g.cluesDJ ++ g.cluesFJ,
      c.first_name ∉ clue.correctAll.map (fun e => e.name))
    (hok : makeScoreData g = .ok res) :
    ∃ s, res.get? j = some (c.name, s) ∧ ∀ v ∈ s, v = 0 := by
  have hnJ : ∀ clue ∈ g.cluesJ, c.first_name ∉ clue.correctAll.map (fun e => e.name) :=
    fun cl hcl => hn cl (by simp [hcl])
  have hnD : ∀ clue ∈ g.cluesDJ, c.first_name ∉ clue.correctAll.map (fun e => e.name) :=
    fun cl hcl => hn cl (by simp [hcl])
  have hnF : ∀ clue ∈ g.cluesFJ, c.first_name ∉ clue.correctAll.map (fun e => e.name) :=
    fun cl hcl => hn cl (by simp [hcl])
  unfold makeScoreData at hok
  cases hfull : makeScoreDataFull g with
  | error e => simp [hfull] at hok
  | ok r =>
    simp only [hfull] at hok
    simp at hok
    subst hok
    obtain ⟨c1, m1, c2, m2, c3, h1, h2, h3, hr⟩ := makeScoreDataFull_inv g r hfull
    have g1 := processRound_untouched g.cluesJ 0 g.contestants 0 c1 m1 j c h1 hc hnJ
    have g2 := processRound_untouched g.cluesDJ m1 c1 m1 c2 m2 j c h2 g1 hnD
    obtain ⟨s, hs1, hs2⟩ := processFinal_untouched g.cluesFJ m2 c2 c3 j c h3 g2 hnF
    have hsz : ∀ v ∈ s, v = (0 : Int) := fun v hv => hz v (hs2 v hv)
    refine ⟨s, ?_, hsz⟩
    rw [hr]
    rw [List.get?_map, List.get?_map, hs1]
    simp [makeSeries_zero_series { c with score_series := s } hsz]

/-- Witness for claim C9: Alice answers nothing in `game9` and her series is
zero everywhere. -/
theorem untouched_contestant_series_zero_witness :
    ∃ s, res9.get? 0 = some (alice4.name, s) ∧ ∀ v ∈ s, v = (0 : Int) :=
  untouched_contestant_series_zero game9 res9 0 alice4 (by decide) (by decide)
    (by decide) (by decide)

/-- Claim C10: on a non-final clue, a contestant's delta is decided by the
first response event naming them, and appending further events for the same
(or any) contestant never changes the written value. -/
theorem first_response_event_wins (c : Contestant) (v : Int)
    (resp : List RespEntry) (x : RespEntry) (rest : List RespEntry) (i : Nat)
    (hx : resp.filter (fun e => e.name == c.first_name) = x :: rest)
    (hi : i < c.score_series.length) :
    updateSeries c v resp i false =
      .ok { c with score_series := c.score_series.set i (if x.tv then v else -1 * v) } ∧
    ∀ extra : List RespEntry,
      updateSeries c v (resp ++ extra) i false = updateSeries c v resp i false := by
  have h1 := updateSeries_first_match c v resp x rest i false v hx rfl hi
  refine ⟨h1, fun extra => ?_⟩
  have hx2 : (resp ++ extra).filter (fun e => e.name == c.first_name) =
      x :: (rest ++ extra.filter (fun e => e.name == c.first_name)) := by
    rw [List.filter_append, hx]
    rfl
  have h2 := updateSeries_first_match c v (resp ++ extra) x
    (rest ++ extra.filter (fun e => e.name == c.first_name)) i false v hx2 rfl hi
  rw [h1, h2]

/-- Witness for claim C10: two conflicting events for Alice; the first
(correct) one decides, and the conflicting tail is inert. -/
theorem first_response_event_wins_witness :
    updateSeries (mkContestant "Alice Ayy" "la" "fa") 100
        [{ name := "Alice", tv := true }, { name := "Alice", tv := false }] 3 false =
      .ok { mkContestant "Alice Ayy" "la" "fa" with
        score_series := (List.replicate 70 0).set 3 (if true then (100 : Int) else -1 * 100) } ∧
    ∀ extra : List RespEntry,
      updateSeries (mkContestant "Alice Ayy" "la" "fa") 100
          ([{ name := "Alice", tv := true }, { name := "Alice", tv := false }] ++ extra) 3 false =
        updateSeries (mkContestant "Alice Ayy" "la" "fa") 100
          [{ name := "Alice", tv := true }, { name := "Alice", tv := false }] 3 false :=
  first_response_event_wins (mkContestant "Alice Ayy" "la" "fa") 100
    [{ name := "Alice", tv := true }, { name := "Alice", tv := false }]
    { name := "Alice", tv := true } [{ name := "Alice", tv := false }] 3
    (by decide) (by decide)

/- ## Serialization, extraction and assembly claims -/

/-- Claim C1 (refuted by the code): restoring a serialized Game does not
reproduce its observable fields.  `Game.__dict__` omits the contestant roster
(`Game._load` never assigns it), and on any game containing a final-round
clue the restore crashes outright: `FinalJeopardyClue.__init__` passes the
kwargs dict to `_load` as a positional argument, raising TypeError before any
field is restored.  Here the round trip of `gameC1` fails with exactly that
TypeError. -/
theorem game_roundtrip_raises_on_final_clue :
    gameLoad (gameDict gameC1) =
      .error (.typeError "_load() takes 2 positional arguments but 3 were given") := by
  decide

/-- Claim C2 (refuted by the code): a revealed non-final clue with zero
outcome rows is not retained with an empty response-events list and a printed
diagnostic — building the diagnostic reads `self.col`, an attribute that was
never assigned (only `row` and `column` are), so extraction raises
AttributeError instead. -/
theorem zero_outcome_rows_raise_attribute_error :
    clueInit fragC2 catsJ1 "jeopardy_round" none = .error (.attributeError "col") := by
  decide

/-- Counterexample to claim C3: in `docC3` the first clue lacks the target
marker and the second clue is parseable on its own, yet Game construction
aborts with the uncaught ValueError — the second clue is never extracted. -/
theorem missing_target_kills_whole_game :
    gameInit docC3 "showgame.php?game_id=3" =
      .error (.valueError "Clue has no correct response?") ∧
    (clueInit fragC3good catsC3 "jeopardy_round" none).isOk = true := by
  constructor
  · decide
  · decide

/-- Claim C3 (amended): a clue whose annotation lacks the target-response
marker raises `ValueError('Clue has no correct response?')`; nothing in
`Game._parse_clues` or `Game.__init__` catches it, so the exception aborts
construction of the whole Game and no later clue is extracted. -/
theorem missing_target_aborts_game
    (doc : Doc) (url t : String) (gs : String × String × String × String × String)
    (frag : ClueFrag) (rest : List ClueFrag) (cats : List (String × List String))
    (txt idStr ann : String) (base : String × Option Int × Option Int × String)
    (ht : doc.gameTitle = some t)
    (hg : doc.titleGroups = some gs)
    (hr : doc.rawClues = frag :: rest)
    (hcats : setCategories doc = .ok cats)
    (hrev : frag.contentsLen ≠ 1)
    (hpr : frag.parentRoundId = some "jeopardy_round")
    (htc : frag.clueTextCell = some (txt, idStr))
    (hstep : setCategoryStep idStr "jeopardy_round" cats = .ok base)
    (hb : (base.1 == "final_jeopardy_round") = false)
    (hom : frag.onmouseover = some ann)
    (htm : frag.targetMatch = none) :
    gameInit doc url = .error (.valueError "Clue has no correct response?") := by
  obtain ⟨num, dow, mon, day, year⟩ := gs
  obtain ⟨sr, row, col, cat⟩ := base
  have hclue : clueInit frag cats "jeopardy_round" none =
      .error (.valueError "Clue has no correct response?") := by
    unfold clueInit setResponses
    simp only [htc, hstep, hb, hom, htm]
    rfl
  unfold gameInit parseClues parseCluesAux
  simp only [ht, hg, hr, hcats, hclue, List.isEmpty_cons, Bool.false_eq_true,
    if_false, if_neg hrev, hpr, String.reduceBEq]
  rfl

/-- Witness for the amended claim C3 at the concrete document `docC3`. -/
theorem missing_target_aborts_game_witness :
    gameInit docC3 "showgame.php?game_id=3" =
      .error (.valueError "Clue has no correct response?") :=
  missing_target_aborts_game docC3 "showgame.php?game_id=3" "#3 title"
    ("3", "Wed", "Jan", "3", "1990") fragC3bad [fragC3good] catsC3
    "t1" "clue_J_1_1" "toggle" ("jeopardy_round", some 1, some 1, "cat a")
    rfl rfl rfl (by decide) (by decide) rfl rfl (by decide) (by decide) rfl rfl

/-- Claim C6: a document with zero clue fragments still yields a Game, whose
clues mapping has exactly the three round keys each mapped to an empty
sequence, and likewise empty category lists for all three rounds. -/
theorem empty_document_game
    (doc : Doc) (url t : String) (gs : String × String × String × String × String)
    (ht : doc.gameTitle = some t)
    (hg : doc.titleGroups = some gs)
    (he : doc.rawClues = []) :
    ∃ g, gameInit doc url = .ok g ∧
      g.clues = [("jeopardy_round", []), ("double_jeopardy_round", []),
                 ("final_jeopardy_round", [])] ∧
      g.categories = [("jeopardy_round", []), ("double_jeopardy_round", []),
                      ("final_jeopardy_round", [])] := by
  obtain ⟨num, dow, mon, day, year⟩ := gs
  unfold gameInit
  simp only [ht, hg, he, List.isEmpty_nil, if_true]
  exact ⟨_, rfl, rfl, rfl⟩

/-- Witness for claim C6 at the concrete empty document `docC6`. -/
theorem empty_document_game_witness :
    ∃ g, gameInit docC6 "showgame.php?game_id=5" = .ok g ∧
      g.clues = [("jeopardy_round", []), ("double_jeopardy_round", []),
                 ("final_jeopardy_round", [])] ∧
      g.categories = [("jeopardy_round", []), ("double_jeopardy_round", []),
                      ("final_jeopardy_round", [])] :=
  empty_document_game docC6 "showgame.php?game_id=5" "#5 t"
    ("5", "Fri", "Jan", "5", "1990") rfl rfl rfl

/-- Counterexample to claim C7: with the final round's container absent in
`docC7`, the Category Index does not produce an empty list for that round —
`find` returns None and the source calls `find_all` on it, raising
AttributeError, so the categories build fails for the whole document. -/
theorem absent_round_div_raises :
    setCategories docC7 = .error (.attributeError "find_all") := by
  decide

/-- Claim C7 (amended): when every round container is present the Category
Index succeeds round by round, and a round whose container holds no
category-name cells gets an empty list; an absent container instead raises
AttributeError and fails the whole categories build. -/
theorem categories_all_divs_present (doc : Doc) (a b c : RoundDiv)
    (hj : doc.jeopardyDiv = some a)
    (hd : doc.doubleDiv = some b)
    (hf : doc.finalDiv = some c) :
    setCategories doc = .ok
      [("jeopardy_round", a.categoryCells.map pyLower),
       ("double_jeopardy_round", b.categoryCells.map pyLower),
       ("final_jeopardy_round", c.categoryCells.map pyLower)] := by
  unfold setCategories roundTagCats
  rw [hj, hd, hf]

/-- Witness for the amended claim C7: all containers present, two of them
with zero category cells, produce empty lists and no error. -/
theorem categories_all_divs_present_witness :
    setCategories { docC7 with finalDiv := some { categoryCells := [], omPayload := none } } =
      .ok [("jeopardy_round", ["a"]), ("double_jeopardy_round", []),
           ("final_jeopardy_round", [])] :=
  categories_all_divs_present
    { docC7 with finalDiv := some { categoryCells := [], omPayload := none } }
    { categoryCells := ["A"], omPayload := none }
    { categoryCells := [], omPayload := none }
    { categoryCells := [], omPayload := none } rfl rfl rfl

/-- Claim C8: a revealed clue cell with coordinate id `clue_J_3_2`, value
cell text `$600` and round ancestor `jeopardy_round` resolves to row 2,
column 3, the third first-round category, value 600, and is not a wagering
clue. -/
theorem clue_J_3_2_extraction (frag : ClueFrag) (cats : List (String × List String))
    (jcats : List String) (txt cat3 : String)
    (r4 : String × String × List (String × Bool) × List (String × String))
    (hid : frag.clueTextCell = some (txt, "clue_J_3_2"))
    (hval : frag.valueCell = some "$600")
    (hcats : pyDictGet cats "jeopardy_round" = .ok jcats)
    (hcat3 : pyListGet jcats 2 = .ok cat3)
    (hresp : setResponses frag "jeopardy_round" (some 2) (some 3) none = .ok r4)
    (horder : frag.orderCell = none) :
    ∃ c, clueInit frag cats "jeopardy_round" none = .ok c ∧
      c.row = some 2 ∧ c.column = some 3 ∧ c.category = cat3 ∧
      c.value = 600 ∧ c.daily_double = false := by
  obtain ⟨tg, an, co, rs⟩ := r4
  have hstep : setCategoryStep "clue_J_3_2" "jeopardy_round" cats =
      (match pyDictGet cats "jeopardy_round" with
       | .error e => .error e
       | .ok cs =>
         match pyListGet cs 2 with
         | .error e => .error e
         | .ok cat => .ok ("jeopardy_round", some 2, some 3, cat)) := rfl
  have hv : setValue frag = .ok (false, 600) := by
    unfold setValue
    rw [hval]
    rfl
  unfold clueInit
  simp only [hid, hstep, hcats, hcat3, hresp, hv, horder, String.reduceBEq,
    Bool.false_eq_true, if_false]
  exact ⟨_, rfl, rfl, rfl, rfl, rfl, rfl⟩

/-- Witness for claim C8 at the fully concrete clue cell `fragC8`. -/
theorem clue_J_3_2_extraction_witness :
    ∃ c, clueInit fragC8 catsC8 "jeopardy_round" none = .ok c ∧
      c.row = some 2 ∧ c.column = some 3 ∧ c.category = "c3" ∧
      c.value = 600 ∧ c.daily_double = false :=
  clue_J_3_2_extraction fragC8 catsC8 ["c1", "c2", "c3"] "prompt" "c3"
    ("resp", "ann", [("Alice", true)], []) rfl rfl (by decide) (by decide)
    rfl rfl
